import Mathlib

/-!
Verification development for the Perp custodial trading repository.

This file shallowly embeds the deposit settlement pipeline
(`src/workers/deposit-monitor.ts`, `src/services/db.service.ts`,
`src/services/blockchain.service.ts`), the exchange client
(`src/services/orderly-client/orderly-api.ts`, `orderly-errors.ts`),
the request signer (`src/services/orderly-client/orderly-auth.ts`),
the EIP-712 registration schemas (`orderly-wallet.ts`,
`wallet.service.ts`) and the encryption service
(`src/services/encryption.service.ts`), and proves or refutes the
specification claims about them.

Conventions: machine numbers are modelled as `Nat`/`Int`; USDC amounts
only ever participate in additions and comparisons in the modelled
code, so they are modelled as `Nat`; external effects (RPC results,
venue responses, random bytes, the Ed25519 primitive, the AES block
function) are explicit parameters.
-/

namespace Perp

/-! ## Deposit data model (src/models/deposit.ts, db.service.ts) -/

/-- Deposit lifecycle states, from `Deposit['status']`. -/
inductive DepositStatus where
  | pending
  | confirmed
  | credited
  | failed
deriving DecidableEq, Repr

/-- A deposit record, from the `Deposit` model. Timestamps and the
redundant `twitterHandle` field are dropped; `id` is the Firestore
document id, modelled as a `Nat`. -/
structure Deposit where
  id : Nat
  userId : String
  txHash : String
  amount : Nat
  fromAddress : String
  toAddress : String
  blockNumber : Nat
  confirmations : Nat
  requiredConfirmations : Nat
  status : DepositStatus
  orderlyConfirmed : Bool
  retryCount : Nat
  errorMessage : Option String
deriving DecidableEq, Repr

/-- A user, restricted to the fields the deposit pipeline touches
(`internalBalance`, `totalDeposits`). -/
structure User where
  id : String
  internalBalance : Nat
  totalDeposits : Nat
deriving DecidableEq, Repr

/-- The persistent store shared by both loops: the deposits
collection, the users collection, and the platform wallet's scan
cursor. `nextId` models Firestore's fresh document-id generation. -/
structure Store where
  deposits : List Deposit
  users : List User
  platformAddress : String
  lastScannedBlock : Nat
  nextId : Nat
deriving DecidableEq, Repr

/-- `DbService.getDepositByTxHash`: first deposit with the given hash. -/
def getDepositByTxHash (store : Store) (txHash : String) : Option Deposit :=
  store.deposits.find? (fun d => d.txHash == txHash)

/-- `DbService.getDepositById`. -/
def getDepositById (store : Store) (id : Nat) : Option Deposit :=
  store.deposits.find? (fun d => d.id == id)

/-- `DbService.getUserById`. -/
def getUserById (store : Store) (userId : String) : Option User :=
  store.users.find? (fun u => u.id == userId)

/-- `DbService.createDeposit`: appends a new record under a fresh id. -/
def createDeposit (store : Store) (d : Nat → Deposit) : Store :=
  { store with
      deposits := store.deposits ++ [d store.nextId]
      nextId := store.nextId + 1 }

/-- `DbService.getPendingDeposits`: status in `['pending','confirmed']`
and `orderlyConfirmed == false`. -/
def getPendingDeposits (store : Store) : List Deposit :=
  store.deposits.filter (fun d =>
    (d.status == DepositStatus.pending || d.status == DepositStatus.confirmed)
      && d.orderlyConfirmed == false)

/-- `DbService.updateDepositStatus`: sets `status` and merges the extra
update-data fields `f` into the record with the given id. -/
def updateDepositStatus (store : Store) (id : Nat) (status : DepositStatus)
    (f : Deposit → Deposit) : Store :=
  { store with
      deposits := store.deposits.map (fun d =>
        if d.id == id then f { d with status := status } else d) }

/-- `DbService.creditUserDeposit`: adds `amount` to `internalBalance`
and `totalDeposits` of the given user. -/
def creditUserDeposit (store : Store) (userId : String) (amount : Nat) : Store :=
  { store with
      users := store.users.map (fun u =>
        if u.id == userId then
          { u with
              internalBalance := u.internalBalance + amount
              totalDeposits := u.totalDeposits + amount }
        else u) }

/-! ## Chain scanner (blockchain.service.ts, deposit-monitor.ts) -/

/-- A USDC `Transfer` event as returned by
`BlockchainService.scanForDeposits`. -/
structure Transfer where
  txHash : String
  fromAddress : String
  amount : Nat
  blockNumber : Nat
deriving DecidableEq, Repr

/-- `BlockchainService.scanForDeposits`: queries transfer events for
the block range; any RPC/event-query error is caught and an empty list
is returned. The event query result is an explicit parameter. -/
def scanForDeposits (queryResult : Except String (List Transfer)) : List Transfer :=
  match queryResult with
  | Except.ok events => events
  | Except.error _ => []

/-- `CONFIRMATIONS_REQUIRED` in deposit-monitor.ts. -/
def CONFIRMATIONS_REQUIRED : Nat := 12

/-- The body of the per-transfer loop in `scanForNewDeposits`
(deposit-monitor.ts lines 56-105): skip if a record with the same
`txHash` exists, skip if the amount is below the $10 minimum,
otherwise create a record whose status depends on the confirmation
count at detection time (user link left empty until claimed). -/
def processScannedTransfer (currentBlock : Nat) (store : Store) (t : Transfer) : Store :=
  match getDepositByTxHash store t.txHash with
  | some _ => store
  | none =>
    if t.amount < 10 then store
    else
      let confirmations := currentBlock - t.blockNumber
      let status := if confirmations ≥ CONFIRMATIONS_REQUIRED
        then DepositStatus.confirmed else DepositStatus.pending
      createDeposit store (fun id =>
        { id := id
          userId := ""
          txHash := t.txHash
          amount := t.amount
          fromAddress := t.fromAddress
          toAddress := store.platformAddress
          blockNumber := t.blockNumber
          confirmations := confirmations
          requiredConfirmations := CONFIRMATIONS_REQUIRED
          status := status
          orderlyConfirmed := false
          retryCount := 0
          errorMessage := none })

/-- One tick of `scanForNewDeposits` (deposit-monitor.ts lines 21-114):
scan from `lastScannedBlock + 1` to the current block, record each
found transfer, then unconditionally advance the cursor to `toBlock`.
The event-query result is a parameter (`Except.error` models an RPC
failure, which `scanForDeposits` converts into an empty list). -/
def scanTick (store : Store) (currentBlock : Nat)
    (queryResult : Except String (List Transfer)) : Store :=
  let fromBlock := store.lastScannedBlock + 1
  let toBlock := currentBlock
  if fromBlock > toBlock then store
  else
    let deposits := scanForDeposits queryResult
    let store' := deposits.foldl (processScannedTransfer currentBlock) store
    { store' with lastScannedBlock := toBlock }

/-! ## Confirmation / crediting loop (deposit-monitor.ts lines 119-219) -/

/-- The external world one crediting tick observes: the transaction
receipt lookup (`blockchainService.getTransaction`, returning the
transaction's block number, `none` when not found), the current block
number, and the outcome of the venue mirror call
(`orderlyService.creditAccountBalance` keyed by `txHash`;
`Except.error` carries the error message). -/
structure CreditWorld where
  getTx : String → Option Nat
  currentBlock : Nat
  mirror : String → Except String Unit
deriving Inhabited

/-- Operator alert text emitted by the crediting loop on repeated
failures (deposit-monitor.ts line 206). -/
def alertMessage (depositId : Nat) : String :=
  "ALERT: deposit " ++ toString depositId ++ " failed repeatedly"

/-- Internal-credit prefix of the crediting step: the store state
after deposit-monitor.ts line 175 (`dbService.creditUserDeposit`) has
committed but before the venue mirror call and before the status
update at lines 188-191.  Re-running the tick from this state models a
process crash between the internal balance update and the status
update. -/
def creditInternalPrefix (store : Store) (d : Deposit) : Store :=
  match getUserById store d.userId with
  | none => store
  | some user => creditUserDeposit store user.id d.amount

/-- The failure handler of the crediting step (deposit-monitor.ts
lines 195-208): mark the record `failed`, record the error message,
increment `retryCount`, and alert when the snapshot's `retryCount` is
already at least 3. -/
def creditFailure (store : Store) (alerts : List String) (d : Deposit)
    (msg : String) : Store × List String :=
  let store' := updateDepositStatus store d.id DepositStatus.failed (fun r =>
    { r with errorMessage := some msg, retryCount := d.retryCount + 1 })
  let alerts' := if d.retryCount ≥ 3 then alerts ++ [alertMessage d.id] else alerts
  (store', alerts')

/-- The body of the per-deposit loop in `processPendingDeposits`
(deposit-monitor.ts lines 129-214): skip unclaimed deposits, look up
the receipt, refresh the confirmation count (promoting `pending` to
`confirmed` at the threshold), and, once confirmed and not yet
mirrored, credit the internal balance, mirror to the venue and mark
`credited`; on a crediting error mark `failed` with an incremented
retry count.  `d` is the snapshot read at tick start; updates are
applied to the store by id. -/
def processOneDeposit (w : CreditWorld) (acc : Store × List String)
    (d : Deposit) : Store × List String :=
  let (store, alerts) := acc
  if d.userId = "" then acc
  else
    match w.getTx d.txHash with
    | none => acc
    | some txBlock =>
      let confirmations := w.currentBlock - txBlock
      let store :=
        if confirmations ≠ d.confirmations then
          if confirmations ≥ d.requiredConfirmations
              ∧ d.status = DepositStatus.pending then
            updateDepositStatus store d.id DepositStatus.confirmed
              (fun r => { r with confirmations := confirmations })
          else
            updateDepositStatus store d.id d.status
              (fun r => { r with confirmations := confirmations })
        else store
      if confirmations ≥ d.requiredConfirmations ∧ d.orderlyConfirmed = false then
        match getUserById store d.userId with
        | none => creditFailure store alerts d "User not found"
        | some user =>
          let store := creditUserDeposit store user.id d.amount
          match w.mirror d.txHash with
          | Except.ok _ =>
            (updateDepositStatus store d.id DepositStatus.credited
              (fun r => { r with orderlyConfirmed := true }), alerts)
          | Except.error msg => creditFailure store alerts d msg
      else (store, alerts)

/-- One tick of `processPendingDeposits`: fetch the pending snapshot
once, then process each record in order.  Returns the updated store
and the operator alerts raised during the tick. -/
def processTick (w : CreditWorld) (store : Store) : Store × List String :=
  (getPendingDeposits store).foldl (processOneDeposit w) (store, [])

/-! ## Exchange client error classification (orderly-errors.ts) -/

/-- The enumerated non-retryable error codes in `isRetryableError`
(orderly-errors.ts lines 393-402): INVALID_SIGNATURE (-1001),
UNAUTHORIZED (-1002), INVALID_PARAM (-1005), UNKNOWN_PARAM (-1004),
DUPLICATE_REQUEST (-1007). -/
def nonRetryableCodes : List Int := [-1001, -1002, -1005, -1004, -1007]

/-- `isRetryableError`: every code not on the non-retryable list is
retryable by default. -/
def isRetryableError (code : Int) : Bool :=
  !(nonRetryableCodes.contains code)

/-- Lower-cases a string character-wise, as `message.toLowerCase()`
does on the ASCII messages involved. -/
def lowerChars (s : String) : List Char :=
  s.toList.map Char.toLower

/-- `message.includes(needle)` on character lists. -/
def containsSub (hay needle : List Char) : Bool :=
  decide (List.IsInfix needle hay)

/-- `isClockSkewError`: an UNAUTHORIZED (-1002) error whose message
mentions `timestamp` or `expired` (case-insensitively). -/
def isClockSkewError (code : Int) (message : String) : Bool :=
  code == -1002
    && (containsSub (lowerChars message) "timestamp".toList
        || containsSub (lowerChars message) "expired".toList)

/-- The `(name, description)` columns of `ERROR_CODE_MAP`
(orderly-errors.ts lines 263-378). -/
def errorCodeInfo (code : Int) : Option (String × String) :=
  if code == -1000 then some ("UNKNOWN", "Unknown error or data doesn't exist")
  else if code == -1001 then some ("INVALID_SIGNATURE", "API key/secret in wrong format")
  else if code == -1002 then
    some ("UNAUTHORIZED", "Invalid, expired, revoked credentials or lack permissions")
  else if code == -1003 then some ("TOO_MANY_REQUEST", "Rate limit exceeded")
  else if code == -1004 then some ("UNKNOWN_PARAM", "Unknown parameter sent")
  else if code == -1005 then some ("INVALID_PARAM", "Improperly formatted parameters")
  else if code == -1006 then some ("RESOURCE_NOT_FOUND", "Data not found in server")
  else if code == -1007 then some ("DUPLICATE_REQUEST", "Data already exists or duplicate request")
  else if code == -1008 then some ("QUANTITY_TOO_HIGH", "Settlement quantity exceeds limits")
  else if code == -1009 then some ("CAN_NOT_WITHDRAWAL", "Withdrawal blocked; arrears must be settled")
  else if code == -1011 then some ("RPC_NOT_CONNECT", "Internal network failure")
  else if code == -1012 then some ("RPC_REJECT", "Order rejected (liquidation or internal error)")
  else if code == -1101 then some ("RISK_TOO_HIGH", "Excessive risk from order size/leverage/margin")
  else if code == -1102 then some ("MIN_NOTIONAL", "Order value (price * size) too small")
  else if code == -1103 then some ("PRICE_FILTER", "Price violates scope/range requirements")
  else if code == -1104 then some ("SIZE_FILTER", "Quantity doesn't conform to step-size")
  else if code == -1105 then some ("PERCENTAGE_FILTER", "Price deviates excessively from mid-market")
  else if code == -1201 then
    some ("LIQUIDATION_REQUEST_" ++ "RATIO_TOO_SMALL", "Liquidation ratio requirements unmet")
  else if code == -1202 then some ("LIQUIDATION_STATUS_ERROR", "Liquidation unnecessary or invalid ID")
  else none

/-- The message of `createOrderlyError`: for a mapped code the message
is enhanced with the error name and actionable description. -/
def createOrderlyErrorMessage (code : Int) (message : String) : String :=
  match errorCodeInfo code with
  | none => message
  | some (name, description) => name ++ ": " ++ message ++ ". " ++ description

/-- Errors surfaced by `OrderlyApiClient.request`: `orderlyErr` is a
thrown `OrderlyApiError`, `plainErr` is the plain `new Error(...)`
thrown by the clock-skew branch, `netErr` is a re-thrown transport
error carrying no venue error body. -/
inductive ClientError where
  | orderlyErr (code : Int) (message : String)
  | plainErr (message : String)
  | netErr (message : String)
deriving DecidableEq, Repr

/-- The clock-skew guidance text appended by orderly-api.ts line 271. -/
def clockGuidance : String := ". Check your system clock and sync with NTP."

/-! ## Exchange client retry loop (orderly-api.ts lines 212-292) -/

/-- One attempt's observable outcome: a successful venue response, an
HTTP-200 response with `success = false` (`appError`, thrown as an
`OrderlyApiError` inside the try block, hence not an axios error), an
HTTP error response carrying a parseable venue error body
(`httpError`), or a transport failure with no venue body
(`networkError`). -/
inductive VenueOutcome (α : Type) where
  | success (value : α)
  | appError (code : Int) (message : String)
  | httpError (code : Int) (message : String)
  | networkError (message : String)

/-- The observable behaviour of one `request` call: its result, the
number of attempts actually made, and the backoff delays slept. -/
structure RunResult (α : Type) where
  result : Except ClientError α
  attempts : Nat
  delays : List Nat
deriving Repr

/-- The exponential backoff of orderly-api.ts line 282:
`delay = min(1000 * 2^attempt, 10000)`. -/
def backoffDelay (attempt : Nat) : Nat :=
  min (1000 * 2 ^ attempt) 10000

/-- What one loop iteration decides to do with its outcome: return,
throw at once, or record the error and fall through to the retry
logic. -/
inductive StepAction (α : Type) where
  | done (v : α)
  | throwNow (e : ClientError)
  | retryWith (e : ClientError)
deriving DecidableEq

/-- The classification performed inside one iteration of `request`
(orderly-api.ts lines 222-278), in source order: a success returns; an
HTTP-200 `success:false` body throws an `OrderlyApiError` inside the
try block, which the catch does not classify (not an axios error), so
it falls through to the retry logic; an HTTP error body is classified
— non-retryable codes are thrown at once, then (only for retryable
codes, as the checks are sequenced) clock-skew errors are rethrown as
a plain `Error` with guidance, and the rest fall through to retry; a
transport error without a venue body falls through to retry. -/
def stepAction {α : Type} (outcome : VenueOutcome α) : StepAction α :=
  match outcome with
  | VenueOutcome.success v => StepAction.done v
  | VenueOutcome.appError code msg =>
    StepAction.retryWith
      (ClientError.orderlyErr code (createOrderlyErrorMessage code msg))
  | VenueOutcome.httpError code msg =>
    if isRetryableError code then
      if isClockSkewError code msg then
        StepAction.throwNow (ClientError.plainErr
          (createOrderlyErrorMessage code msg ++ clockGuidance))
      else
        StepAction.retryWith
          (ClientError.orderlyErr code (createOrderlyErrorMessage code msg))
    else
      StepAction.throwNow
        (ClientError.orderlyErr code (createOrderlyErrorMessage code msg))
  | VenueOutcome.networkError msg =>
    StepAction.retryWith (ClientError.netErr msg)

/-- The retry loop of `OrderlyApiClient.request`, with the response of
each attempt given by `responses`.  `attempt` is the loop counter,
`remaining` the number of loop iterations left
(initially `maxRetries + 1`), `lastError` the error captured by the
previous iteration.  Each iteration acts on `stepAction`; a
fall-through failure sleeps `backoffDelay attempt` unless this was the
final iteration (`attempt < maxRetries` in the source, i.e.
`remaining > 1`), and an exhausted loop throws `lastError`. -/
def requestGo {α : Type} (responses : Nat → VenueOutcome α) :
    Nat → Nat → ClientError → RunResult α
  | _, 0, lastError => ⟨Except.error lastError, 0, []⟩
  | attempt, r + 1, _ =>
    match stepAction (responses attempt) with
    | StepAction.done v => ⟨Except.ok v, 1, []⟩
    | StepAction.throwNow e => ⟨Except.error e, 1, []⟩
    | StepAction.retryWith e =>
      let rest := requestGo responses (attempt + 1) r e
      ⟨rest.result, rest.attempts + 1,
        (if r = 0 then [] else [backoffDelay attempt]) ++ rest.delays⟩

/-- `OrderlyApiClient.request`: runs the retry loop for
`maxRetries + 1` iterations starting at attempt 0. -/
def request {α : Type} (responses : Nat → VenueOutcome α) (maxRetries : Nat) :
    RunResult α :=
  requestGo responses 0 (maxRetries + 1) (ClientError.netErr "request failed")

/-! ## Request signer (orderly-auth.ts) -/

/-- The character of a decimal digit. -/
def digitChar (d : Nat) : Char := Char.ofNat (48 + d)

/-- Decimal digits of `n`, least significant first; any
`fuel ≥ number of digits` gives the same answer. -/
def natDigitsRev : Nat → Nat → List Char
  | 0, _ => []
  | fuel + 1, n =>
    if n = 0 then [] else digitChar (n % 10) :: natDigitsRev fuel (n / 10)

/-- JavaScript's decimal rendering of a natural number, as produced by
template interpolation and `JSON.stringify`. -/
def natRepr (n : Nat) : String :=
  if n = 0 then "0" else String.mk (natDigitsRev n n).reverse

/-- JavaScript's decimal rendering of an integer. -/
def intRepr (n : Int) : String :=
  if n < 0 then "-" ++ natRepr n.natAbs else natRepr n.natAbs

/-- The JSON/HTTP whitespace characters. -/
def isWsChar (c : Char) : Bool :=
  c == ' ' || c == '\t' || c == '\n' || c == '\r'

/-- `true` when the string contains no whitespace character. -/
def strNoWs (s : String) : Bool :=
  s.toList.all (fun c => !isWsChar c)

/-- The HTTP methods accepted by `generateAuthHeaders`. -/
inductive HttpMethod where
  | get
  | post
  | put
  | delete
deriving DecidableEq, Repr

/-- The literal method strings `'GET' | 'POST' | 'PUT' | 'DELETE'`. -/
def methodStr : HttpMethod → String
  | HttpMethod.get => "GET"
  | HttpMethod.post => "POST"
  | HttpMethod.put => "PUT"
  | HttpMethod.delete => "DELETE"

/-- A scalar JSON value.  The request bodies this client serializes
(`CreateOrderRequest`, registration payloads, ...) are flat objects of
scalar fields. -/
inductive JsonScalar where
  | str (s : String)
  | num (n : Int)
  | bool (b : Bool)
deriving DecidableEq, Repr

/-- `JSON.stringify` on a scalar.  String escaping is omitted: the
field values involved are plain ASCII without quotes or control
characters, on which `JSON.stringify` is the identity apart from the
surrounding quotes. -/
def scalarStringify : JsonScalar → String
  | JsonScalar.str s => "\"" ++ s ++ "\""
  | JsonScalar.num n => intRepr n
  | JsonScalar.bool true => "true"
  | JsonScalar.bool false => "false"

/-- Comma-joining of the serialized fields, as `JSON.stringify` emits
them: no surrounding whitespace. -/
def joinComma : List String → String
  | [] => ""
  | [x] => x
  | x :: y :: xs => x ++ "," ++ joinComma (y :: xs)

/-- `JSON.stringify` on a flat object: compact form, no whitespace
inserted anywhere. -/
def jsonStringify (fields : List (String × JsonScalar)) : String :=
  "\x7b" ++ joinComma
    (fields.map (fun f => "\"" ++ f.1 ++ "\":" ++ scalarStringify f.2)) ++ "\x7d"

/-- The `SignaturePayload` of orderly-types.ts: the ephemeral value a
signature is computed over. -/
structure SignaturePayload where
  timestamp : Nat
  method : HttpMethod
  path : String
  body : Option String
deriving DecidableEq, Repr

/-- `OrderlyAuth.constructCanonicalString` (orderly-auth.ts lines
25-32): `${timestamp}${method}${path}${body || ''}` — plain
concatenation with no delimiters, an absent body contributing
nothing. -/
def constructCanonicalString (payload : SignaturePayload) : String :=
  natRepr payload.timestamp ++ methodStr payload.method ++ payload.path
    ++ payload.body.getD ""

/-- UTF-8 bytes of a message, as `new TextEncoder().encode(message)`.
The canonical strings signed here are ASCII, on which UTF-8 is the
code-point identity. -/
def utf8Bytes (s : String) : List Nat :=
  s.toList.map Char.toNat

/-- The standard base64 alphabet used by
`Buffer.toString('base64')`. -/
def b64StdAlphabet : List Char :=
  "ABCDEFGHIJKLMNOPQRSTUVWXYZabcdefghijklmnopqrstuvwxyz0123456789+/".toList

/-- The URL-safe base64 alphabet. -/
def b64UrlAlphabet : List Char :=
  "ABCDEFGHIJKLMNOPQRSTUVWXYZabcdefghijklmnopqrstuvwxyz0123456789-_".toList

def b64StdChar (n : Nat) : Char := b64StdAlphabet.getD n '?'

def b64UrlChar (n : Nat) : Char := b64UrlAlphabet.getD n '?'

/-- Splits a byte sequence into base64 6-bit symbol values, returning
the symbols and the number of `'='` padding characters. -/
def b64Groups : List Nat → List Nat × Nat
  | [] => ([], 0)
  | [a] => ([a / 4, a % 4 * 16], 2)
  | [a, b] => ([a / 4, a % 4 * 16 + b / 16, b % 16 * 4], 1)
  | a :: b :: c :: rest =>
    let (s, p) := b64Groups rest
    (a / 4 :: (a % 4 * 16 + b / 16) :: (b % 16 * 4 + c / 64) :: c % 64 :: s, p)

/-- `Buffer.from(bytes).toString('base64')`: standard alphabet with
`'='` padding. -/
def base64Encode (bytes : List Nat) : List Char :=
  ((b64Groups bytes).1.map b64StdChar)
    ++ List.replicate (b64Groups bytes).2 '='

/-- URL-safe unpadded base64, defined directly from the encoding
specification (same 6-bit symbols, `-`/`_` alphabet, no padding); used
to state what `signMessage`'s character replacements amount to. -/
def base64UrlNoPad (bytes : List Nat) : List Char :=
  (b64Groups bytes).1.map b64UrlChar

/-- The character rewriting of orderly-auth.ts line 44:
`.replace(/\+/g, '-').replace(/\//g, '_')`. -/
def stdToUrlChar (c : Char) : Char :=
  if c = '+' then '-' else if c = '/' then '_' else c

/-- `.replace(/=+$/, '')`: strips the trailing run of `'='`. -/
def dropTrailingEq (l : List Char) : List Char :=
  (l.reverse.dropWhile (fun c => c == '=')).reverse

/-- `OrderlyAuth.signMessage` (orderly-auth.ts lines 38-45): Ed25519
over the UTF-8 bytes of the message, then base64 with `+`/`/` rewritten
and padding stripped.  The Ed25519 primitive `ed.signAsync`
(deterministic per RFC 8032) is an explicit function parameter
`edSign : message bytes → private key → signature bytes`. -/
def signMessage (edSign : List Nat → List Nat → List Nat)
    (privateKey : List Nat) (message : String) : String :=
  let signatureBytes := edSign (utf8Bytes message) privateKey
  String.mk (dropTrailingEq ((base64Encode signatureBytes).map stdToUrlChar))

/-- The signature produced by `generateAuthHeaders` (orderly-auth.ts
lines 50-94) for a given `Date.now()` reading `now`: the body is
serialized with `JSON.stringify` when present, the canonical string is
built from `(now, method, path, bodyString)`, and `signMessage` signs
it. -/
def generateAuthSignature (edSign : List Nat → List Nat → List Nat)
    (privateKey : List Nat) (method : HttpMethod) (path : String)
    (body : Option (List (String × JsonScalar))) (now : Nat) : String :=
  let bodyString := body.map jsonStringify
  let canonical := constructCanonicalString
    { timestamp := now, method := method, path := path, body := bodyString }
  signMessage edSign privateKey canonical

/-! ## EIP-712 registration schemas (orderly-wallet.ts, wallet.service.ts) -/

/-- One field of an EIP-712 typed-data schema. -/
structure TypedField where
  name : String
  fieldType : String
deriving DecidableEq, Repr

/-- An EIP-712 domain. -/
structure Eip712Domain where
  name : String
  version : String
  chainId : Nat
  verifyingContract : String
deriving DecidableEq, Repr

/-- `OFF_CHAIN_VERIFYING_CONTRACT` (orderly-wallet.ts line 15), also
hard-coded in `WalletService.signRegistrationMessage`. -/
def offChainVerifyingContract : String :=
  "0xCcCCccccCCCCcCCCCCCcCcCccCcCCCcCcccccccC"

/-- The `Registration` schema inside
`WalletService.signRegistrationMessage` (wallet.service.ts): four
fields, ordered. -/
def registrationTypesWalletService : List TypedField :=
  [⟨"brokerId", "string"⟩, ⟨"chainId", "uint256"⟩,
   ⟨"timestamp", "uint64"⟩, ⟨"registrationNonce", "uint256"⟩]

/-- `REGISTRATION_TYPES` (orderly-wallet.ts lines 18-26), used by
`OrderlyWallet.signRegistration` and hence by the V2 registration flow
`registerUserAccount`: five fields, with `chainType : string` third
and `registrationNonce : uint64`. -/
def registrationTypesOrderlyWallet : List TypedField :=
  [⟨"brokerId", "string"⟩, ⟨"chainId", "uint256"⟩, ⟨"chainType", "string"⟩,
   ⟨"timestamp", "uint64"⟩, ⟨"registrationNonce", "uint64"⟩]

/-- The Registration schema exactly as the specification words it
(§6): `brokerId:string, chainId:uint256, timestamp:uint64,
registrationNonce:uint256`, nothing else.  Kept separate from the two
source schemas so they can be compared against it. -/
def specRegistrationSchema : List TypedField :=
  [⟨"brokerId", "string"⟩, ⟨"chainId", "uint256"⟩,
   ⟨"timestamp", "uint64"⟩, ⟨"registrationNonce", "uint256"⟩]

/-- The domain used by `WalletService.signRegistrationMessage`
(wallet.service.ts): `{name: 'Orderly', version: '1', chainId,
verifyingContract: 0xCcCC...C}`. -/
def walletServiceRegistrationDomain (chainId : Nat) : Eip712Domain :=
  { name := "Orderly", version := "1", chainId := chainId,
    verifyingContract := offChainVerifyingContract }

/-- The domain used by `OrderlyWallet.signRegistration`
(orderly-wallet.ts `createDomain` with
`OFF_CHAIN_VERIFYING_CONTRACT`). -/
def orderlyWalletRegistrationDomain (chainId : Nat) : Eip712Domain :=
  { name := "Orderly", version := "1", chainId := chainId,
    verifyingContract := offChainVerifyingContract }

/-! ## Encryption service (encryption.service.ts) -/

/-- The parsed envelope produced by `EncryptionService.encrypt`: the
`{iv, encrypted, tag}` record (the source serializes it to JSON with
base64 fields; here it is kept structured, with `none` standing for an
input on which `JSON.parse` fails). -/
structure EncryptedData where
  iv : List Nat
  encrypted : List Nat
  tag : List Nat
deriving DecidableEq, Repr

/-- Byte-wise XOR, truncating to the shorter list. -/
def zipXor (a b : List Nat) : List Nat :=
  List.zipWith (fun x y => x ^^^ y) a b

/-- The AES-256-GCM counter-mode keystream for a message of `len`
bytes, truncated to `len`.  The keyed-and-IV'd AES block function
`block : counter → 16-byte block` is abstract (payload counters start
at 2, counter 1 being reserved for the tag). -/
def keyStream (block : Nat → List Nat) (len : Nat) : List Nat :=
  (((List.range len).map (fun i => block (i + 2))).flatten).take len

/-- The GCM authentication tag: GHASH of the ciphertext (abstract
`ghash` parameter keyed by key and IV) masked with the counter-1
block, as in AES-256-GCM.  Faithful to `cipher.getAuthTag()` at the
structural level: the tag is a function of key, IV and ciphertext. -/
def gcmTag (blockE : List Nat → List Nat → Nat → List Nat)
    (ghash : List Nat → List Nat → List Nat → List Nat)
    (key iv ct : List Nat) : List Nat :=
  zipXor (ghash key iv ct) (blockE key iv 1)

/-- `EncryptionService.encrypt` (encryption.service.ts lines 37-64):
draw a fresh random 12-byte IV, encrypt with AES-256-GCM under the
master key, and return the `{iv, encrypted, tag}` envelope.  The
process's randomness source `randomBytes` and the AES-256 block
function `blockE` are explicit parameters. -/
def encryptService (blockE : List Nat → List Nat → Nat → List Nat)
    (ghash : List Nat → List Nat → List Nat → List Nat)
    (masterKey : List Nat) (randomBytes : Nat → List Nat)
    (plaintext : List Nat) : EncryptedData :=
  let iv := randomBytes 12
  let ct := zipXor plaintext (keyStream (blockE masterKey iv) plaintext.length)
  { iv := iv, encrypted := ct, tag := gcmTag blockE ghash masterKey iv ct }

/-- `EncryptionService.decrypt` (encryption.service.ts lines 71-95):
a malformed envelope (`JSON.parse` failure, modelled as `none`) fails;
otherwise the GCM tag is recomputed over the ciphertext and checked
(`decipher.final` throws on mismatch), and on success the ciphertext
is decrypted with the same keystream. -/
def decryptService (blockE : List Nat → List Nat → Nat → List Nat)
    (ghash : List Nat → List Nat → List Nat → List Nat)
    (masterKey : List Nat) (envelope : Option EncryptedData) :
    Except String (List Nat) :=
  match envelope with
  | none => Except.error "Decryption failed: malformed envelope"
  | some env =>
    if gcmTag blockE ghash masterKey env.iv env.encrypted = env.tag then
      Except.ok (zipXor env.encrypted
        (keyStream (blockE masterKey env.iv) env.encrypted.length))
    else Except.error "Decryption failed: authentication tag mismatch"

/-! ## Claim C10 — failed scans are indistinguishable from empty ones -/

/-- C10: for every RPC or event-query failure during a block-range
scan, `scanForDeposits` catches the error and returns an empty list,
indistinguishable at its interface from a successful scan that found
no transfers; a whole scan tick behaves identically on a failed query
and on a successful empty one. -/
theorem c10_scan_error_indistinguishable :
    ∀ (e : String),
      scanForDeposits (Except.error e)
          = scanForDeposits (Except.ok ([] : List Transfer))
        ∧ ∀ (store : Store) (currentBlock : Nat),
            scanTick store currentBlock (Except.error e)
              = scanTick store currentBlock (Except.ok ([] : List Transfer)) :=
  fun _ => ⟨rfl, fun _ _ => rfl⟩

/-! ## Claim C4 — scanner cursor discipline -/

/-- Store for the scanner counterexample: cursor at block 5, nothing
else. -/
def c4Store : Store :=
  { deposits := [], users := [], platformAddress := "0xPLATFORM",
    lastScannedBlock := 5, nextId := 0 }

/-- C4 counterexample: with the cursor at block 5 and the chain at
block 10, a scan tick whose event query fails with an RPC error still
advances the cursor to 10 while recording nothing — a failed scan does
move the cursor past the unscanned range, contrary to the claim. -/
theorem c4_counterexample :
    (scanTick c4Store 10 (Except.error "rpc error")).lastScannedBlock = 10
      ∧ (scanTick c4Store 10 (Except.error "rpc error")).deposits = []
      ∧ c4Store.lastScannedBlock = 5 :=
  ⟨rfl, rfl, rfl⟩

/-- C4 (amended): the cursor advances monotonically and scans cover
the contiguous gapless range `lastScannedBlock + 1 .. currentBlock`
(a tick with nothing to scan leaves the store untouched); however the
cursor is advanced at the end of every completed tick regardless of
whether the event query failed (a failed query is converted to an
empty result and the cursor still jumps to the current block). -/
theorem c4_amended :
    (∀ (store : Store) (cb : Nat) (q : Except String (List Transfer)),
        store.lastScannedBlock ≤ (scanTick store cb q).lastScannedBlock)
      ∧ (∀ (store : Store) (cb : Nat) (q : Except String (List Transfer)),
          store.lastScannedBlock + 1 ≤ cb →
            (scanTick store cb q).lastScannedBlock = cb)
      ∧ (∀ (store : Store) (cb : Nat) (q : Except String (List Transfer)),
          cb < store.lastScannedBlock + 1 → scanTick store cb q = store)
      ∧ (∀ (store : Store) (cb : Nat) (e : String),
          (scanTick store cb (Except.error e)).lastScannedBlock
            = (scanTick store cb (Except.ok [])).lastScannedBlock) := by
  refine ⟨?_, ?_, ?_, ?_⟩
  · intro store cb q
    by_cases h : store.lastScannedBlock + 1 > cb
    · simp [scanTick, h]
    · simp only [scanTick, if_pos, if_neg h]
      omega
  · intro store cb q h
    have h' : ¬ store.lastScannedBlock + 1 > cb := by omega
    simp [scanTick, h']
  · intro store cb q h
    have h' : store.lastScannedBlock + 1 > cb := by omega
    simp [scanTick, h']
  · intro store cb e
    rfl

/-- C4 amended witness: the amended theorem applied at the
counterexample store with the chain at block 10 (advance) and at block
3 (nothing to scan). -/
theorem c4_amended_witness :
    (scanTick c4Store 10 (Except.ok [])).lastScannedBlock = 10
      ∧ scanTick c4Store 3 (Except.ok []) = c4Store :=
  ⟨c4_amended.2.1 c4Store 10 (Except.ok []) (by decide),
   c4_amended.2.2.1 c4Store 3 (Except.ok []) (by decide)⟩

/-! ## Claim C3 — EIP-712 Registration schema -/

/-- C3: the repository signs registrations through two schemas.
`WalletService.signRegistrationMessage` uses exactly the claimed
ordered schema `brokerId:string, chainId:uint256, timestamp:uint64,
registrationNonce:uint256` under the domain
`{name: 'Orderly', version: '1', chainId, verifyingContract =
0xCcCC...C}`, but `REGISTRATION_TYPES` in orderly-wallet.ts — the
schema used by `OrderlyWallet.signRegistration` and the V2
registration flow — deviates from it: five fields, with an extra
`chainType : string` in third position and `registrationNonce` typed
`uint64`.  The repository's own documentation (ORDERLY_FIXES_APPLIED,
deposit/integration guides) states the four-field schema is the
correct one, so the five-field signer is a code bug. -/
theorem c3_registration_schema :
    registrationTypesWalletService = specRegistrationSchema
      ∧ walletServiceRegistrationDomain 42161 =
          { name := "Orderly", version := "1", chainId := 42161,
            verifyingContract := "0xCcCCccccCCCCcCCCCCCcCcCccCcCCCcCcccccccC" }
      ∧ orderlyWalletRegistrationDomain 42161
          = walletServiceRegistrationDomain 42161
      ∧ registrationTypesOrderlyWallet ≠ specRegistrationSchema
      ∧ registrationTypesOrderlyWallet.length = 5
      ∧ registrationTypesOrderlyWallet[2]? = some ⟨"chainType", "string"⟩
      ∧ registrationTypesOrderlyWallet[4]?
          = some ⟨"registrationNonce", "uint64"⟩ := by
  refine ⟨rfl, rfl, rfl, ?_, rfl, rfl, rfl⟩
  decide

/-! ## Claims C1 / C2 — crediting idempotency and failure handling -/

/-- A user with no balance yet. -/
def demoUser : User := { id := "u1", internalBalance := 0, totalDeposits := 0 }

/-- A confirmed, claimed, not-yet-credited 100 USDC deposit. -/
def demoDeposit : Deposit :=
  { id := 1, userId := "u1", txHash := "0xabc", amount := 100,
    fromAddress := "0xsender", toAddress := "0xPLATFORM", blockNumber := 50,
    confirmations := 12, requiredConfirmations := 12,
    status := DepositStatus.confirmed, orderlyConfirmed := false,
    retryCount := 0, errorMessage := none }

/-- The transfer event that gave rise to `demoDeposit`. -/
def demoTransfer : Transfer :=
  { txHash := "0xabc", fromAddress := "0xsender", amount := 100, blockNumber := 50 }

/-- Store holding `demoUser` and `demoDeposit`. -/
def demoStore : Store :=
  { deposits := [demoDeposit], users := [demoUser],
    platformAddress := "0xPLATFORM", lastScannedBlock := 100, nextId := 2 }

/-- World in which the deposit's receipt sits at block 50, the chain
is at block 62 (12 confirmations) and the venue mirror succeeds. -/
def okWorld : CreditWorld :=
  { getTx := fun h => if h == "0xabc" then some 50 else none,
    currentBlock := 62, mirror := fun _ => Except.ok () }

/-- Same world but the venue mirror call fails. -/
def failWorld : CreditWorld :=
  { okWorld with mirror := fun _ => Except.error "Orderly API error" }

/-- The successful crediting step decomposes as: the internal-credit
prefix (`creditInternalPrefix`, the state right after
`dbService.creditUserDeposit` commits) followed by the status update
to `credited`.  This pins `creditInternalPrefix` to the statement
order of deposit-monitor.ts lines 169-191. -/
lemma processOneDeposit_decomposition (w : CreditWorld) (store : Store)
    (al : List String) (d : Deposit) (user : User) (tb : Nat)
    (huid : ¬ d.userId = "")
    (htx : w.getTx d.txHash = some tb)
    (hconf : w.currentBlock - tb = d.confirmations)
    (hge : d.confirmations ≥ d.requiredConfirmations)
    (hoc : d.orderlyConfirmed = false)
    (huser : getUserById store d.userId = some user)
    (hmirror : w.mirror d.txHash = Except.ok ()) :
    processOneDeposit w (store, al) d
      = (updateDepositStatus (creditInternalPrefix store d) d.id
          DepositStatus.credited (fun r => { r with orderlyConfirmed := true }),
         al) := by
  unfold processOneDeposit creditInternalPrefix
  simp [huid, htx, hconf, hge, hoc, huser, hmirror]

/-- C1 counterexample: starting from the state in which the crediting
tick crashed between the internal balance update and the status
update (`creditInternalPrefix demoStore demoDeposit`: balance already
100), re-running the crediting tick credits the user again — the
balance ends at 200, two increments of the 100 USDC amount, because
`orderlyConfirmed` is still false at the crash point and the guard
does not see the already-applied internal increment. -/
theorem c1_counterexample :
    getUserById (creditInternalPrefix demoStore demoDeposit) "u1"
        = some { id := "u1", internalBalance := 100, totalDeposits := 100 }
      ∧ getUserById ((processTick okWorld
            (creditInternalPrefix demoStore demoDeposit)).1) "u1"
        = some { id := "u1", internalBalance := 200, totalDeposits := 200 }
      ∧ demoDeposit.amount = 100 :=
  ⟨rfl, rfl, rfl⟩

/-- C1 (amended): a second sighting of a `txHash` by the scanner
creates no second record, and re-running the crediting tick after the
status update has committed (`orderlyConfirmed = true`) applies no
further balance increment — but the `orderlyConfirmed` check does not
protect a re-run after a crash between the internal balance update
and the status update (see the counterexample): the guard makes the
mirror retriable, not the internal increment. -/
theorem c1_amended :
    (∀ (store : Store) (cb : Nat) (t : Transfer),
        (getDepositByTxHash store t.txHash).isSome = true →
          processScannedTransfer cb store t = store)
      ∧ getUserById ((processTick okWorld demoStore).1) "u1"
          = some { id := "u1", internalBalance := 100, totalDeposits := 100 }
      ∧ (processTick okWorld ((processTick okWorld demoStore).1)).1
          = (processTick okWorld demoStore).1
      ∧ ((processTick okWorld demoStore).1).deposits.length = 1 := by
  refine ⟨?_, rfl, rfl, rfl⟩
  intro store cb t h
  obtain ⟨d, hd⟩ := Option.isSome_iff_exists.mp h
  unfold processScannedTransfer
  simp [hd]

/-- C1 amended witness: the scanner-idempotency conjunct applied to
the demo store and the already-recorded transfer. -/
theorem c1_amended_witness :
    processScannedTransfer 62 demoStore demoTransfer = demoStore :=
  c1_amended.1 demoStore 62 demoTransfer (by decide)

/-- C2 counterexample: when the venue mirror fails, the record does
not stay `confirmed` — it is set to `failed` — and it disappears from
the pending-deposits query, so it is not retried on subsequent ticks. -/
theorem c2_counterexample :
    (getDepositById ((processTick failWorld demoStore).1) 1).map Deposit.status
        = some DepositStatus.failed
      ∧ getPendingDeposits ((processTick failWorld demoStore).1) = []
      ∧ getPendingDeposits demoStore = [demoDeposit] :=
  ⟨rfl, rfl, rfl⟩

/-- Demo store whose deposit has already failed three times. -/
def demoStoreRetry3 : Store :=
  { demoStore with deposits := [{ demoDeposit with retryCount := 3 }] }

/-- C2 (amended): when the crediting step's venue mirror fails, the
record transitions to `failed` (not `confirmed`) with `retryCount`
incremented and `errorMessage` recorded; the internal balance
increment has already been applied by then; an operator alert is
raised on the failure that takes `retryCount` past 3; and since the
pending query excludes `failed`, the deposit stops being retried until
manually reset. -/
theorem c2_amended :
    (∀ (store : Store) (d : Deposit),
        d ∈ getPendingDeposits store → d.status ≠ DepositStatus.failed)
      ∧ getDepositById ((processTick failWorld demoStore).1) 1
          = some { demoDeposit with
                    status := DepositStatus.failed
                    retryCount := 1
                    errorMessage := some "Orderly API error" }
      ∧ getUserById ((processTick failWorld demoStore).1) "u1"
          = some { id := "u1", internalBalance := 100, totalDeposits := 100 }
      ∧ (processTick failWorld demoStore).2 = []
      ∧ (processTick failWorld demoStoreRetry3).2 = [alertMessage 1]
      ∧ (getDepositById ((processTick failWorld demoStoreRetry3).1) 1).map
          Deposit.retryCount = some 4 := by
  refine ⟨?_, rfl, rfl, rfl, rfl, rfl⟩
  intro store d hmem
  have h := List.mem_filter.mp hmem
  intro hst
  rw [hst] at h
  simp at h

/-- C2 amended witness: the pending-query conjunct applied to the demo
store's deposit. -/
theorem c2_amended_witness :
    demoDeposit.status ≠ DepositStatus.failed :=
  c2_amended.1 demoStore demoDeposit (by decide)

/-! ## Claims C6 / C7 — retry classification, backoff, clock skew -/

/-- A clock-skew error necessarily carries the UNAUTHORIZED code,
which the classification holds non-retryable — the reason the
clock-skew rethrow is unreachable. -/
lemma clockSkew_not_retryable (code : Int) (msg : String)
    (h : isClockSkewError code msg = true) : isRetryableError code = false := by
  simp only [isClockSkewError, Bool.and_eq_true, beq_iff_eq] at h
  obtain ⟨hc, -⟩ := h
  subst hc
  decide

/-- No outcome classification falls through to retry with the plain
clock-skew error. -/
lemma stepAction_ne_plain_retry {α : Type} (o : VenueOutcome α) (s : String) :
    stepAction o ≠ StepAction.retryWith (ClientError.plainErr s) := by
  cases o with
  | success v => simp [stepAction]
  | appError code msg => simp [stepAction]
  | httpError code msg =>
    unfold stepAction
    cases hr : isRetryableError code with
    | false => simp [hr]
    | true =>
      cases hcs : isClockSkewError code msg with
      | false => simp [hr, hcs]
      | true => simp [hr, hcs]
  | networkError msg => simp [stepAction]

/-- No outcome classification ever throws the plain clock-skew error:
the branch that would (`isClockSkewError`) requires the UNAUTHORIZED
code, which `isRetryableError` already rejected one line earlier. -/
lemma stepAction_ne_plain_throw {α : Type} (o : VenueOutcome α) (s : String) :
    stepAction o ≠ StepAction.throwNow (ClientError.plainErr s) := by
  cases o with
  | success v => simp [stepAction]
  | appError code msg => simp [stepAction]
  | httpError code msg =>
    unfold stepAction
    cases hr : isRetryableError code with
    | false => simp [hr]
    | true =>
      cases hcs : isClockSkewError code msg with
      | false => simp [hr, hcs]
      | true =>
        rw [clockSkew_not_retryable code msg hcs] at hr
        exact absurd hr (by simp)
  | networkError msg => simp [stepAction]

/-- The loop makes at most `remaining` attempts. -/
lemma requestGo_attempts_le {α : Type} (responses : Nat → VenueOutcome α) :
    ∀ (r a : Nat) (le : ClientError), (requestGo responses a r le).attempts ≤ r := by
  intro r
  induction r with
  | zero => intro a le; simp [requestGo]
  | succ r ih =>
    intro a le
    simp only [requestGo]
    cases h : stepAction (responses a) with
    | done v => simp
    | throwNow e => simp
    | retryWith e => simpa using Nat.succ_le_succ (ih (a + 1) e)

/-- With at least one iteration left, the loop makes at least one
attempt. -/
lemma requestGo_attempts_pos {α : Type} (responses : Nat → VenueOutcome α) :
    ∀ (r a : Nat) (le : ClientError), 1 ≤ r →
      1 ≤ (requestGo responses a r le).attempts := by
  intro r
  cases r with
  | zero => intro a le h; omega
  | succ r =>
    intro a le _
    simp only [requestGo]
    cases h : stepAction (responses a) with
    | done v => simp
    | throwNow e => simp
    | retryWith e => simp

/-- The delays slept by a run are exactly `backoffDelay` at the
successive attempt indices: one delay after each non-final failed
attempt. -/
lemma requestGo_delays {α : Type} (responses : Nat → VenueOutcome α) :
    ∀ (r a : Nat) (le : ClientError),
      (requestGo responses a r le).delays
        = (List.range' a ((requestGo responses a r le).attempts - 1)).map
            backoffDelay := by
  intro r
  induction r with
  | zero => intro a le; simp [requestGo]
  | succ r ih =>
    intro a le
    simp only [requestGo]
    cases h : stepAction (responses a) with
    | done v => simp
    | throwNow e => simp
    | retryWith e =>
      cases r with
      | zero => simp [requestGo]
      | succ r' =>
        have hpos : 1 ≤ (requestGo responses (a + 1) (r' + 1) e).attempts :=
          requestGo_attempts_pos responses (r' + 1) (a + 1) e (by omega)
        obtain ⟨k, hk⟩ : ∃ k, (requestGo responses (a + 1) (r' + 1) e).attempts
            = k + 1 :=
          ⟨(requestGo responses (a + 1) (r' + 1) e).attempts - 1, by omega⟩
        have hih := ih (a + 1) e
        rw [hk] at hih
        simp only [Nat.add_sub_cancel] at hih
        simp [hk, hih, List.range'_succ]

/-- If the loop's threaded `lastError` is not the plain clock-skew
error, the run never surfaces one. -/
lemma requestGo_result_ne_plainErr {α : Type} (responses : Nat → VenueOutcome α) :
    ∀ (r a : Nat) (le : ClientError), (∀ t, le ≠ ClientError.plainErr t) →
      ∀ s, (requestGo responses a r le).result
        ≠ Except.error (ClientError.plainErr s) := by
  intro r
  induction r with
  | zero =>
    intro a le hle s
    simp only [requestGo]
    intro h
    exact hle s (Except.error.inj h)
  | succ r ih =>
    intro a le hle s
    simp only [requestGo]
    cases h : stepAction (responses a) with
    | done v => simp
    | throwNow e =>
      simp only []
      intro heq
      have he : e = ClientError.plainErr s := Except.error.inj heq
      rw [he] at h
      exact stepAction_ne_plain_throw (responses a) s h
    | retryWith e =>
      have he : ∀ t, e ≠ ClientError.plainErr t := by
        intro t ht
        rw [ht] at h
        exact stepAction_ne_plain_retry (responses a) t h
      simpa using ih (a + 1) e he s

/-- C6: the client classifies venue codes with exactly the
non-retryable allow-list {-1001 invalid-signature, -1002 unauthorized,
-1005 invalid-param, -1004 unknown-param, -1007 duplicate-request},
everything else retryable by default; it makes at most
`maxRetries + 1` attempts; each retry sleeps
`min(1000 * 2^attempt, 10000)` ms, the delays of a run being exactly
`backoffDelay` at the successive attempt indices; a non-retryable HTTP
error is thrown on the first attempt without any retry, while a
retryable one is retried (here: a retryable first failure followed by
a success yields the success after one 1000 ms backoff). -/
theorem c6_retry_policy :
    (∀ code : Int, isRetryableError code = false ↔
        (code = -1001 ∨ code = -1002 ∨ code = -1005 ∨ code = -1004 ∨ code = -1007))
      ∧ (∀ attempt : Nat, backoffDelay attempt = min (1000 * 2 ^ attempt) 10000)
      ∧ backoffDelay 0 = 1000 ∧ backoffDelay 1 = 2000 ∧ backoffDelay 2 = 4000
      ∧ (∀ attempt : Nat, backoffDelay attempt ≤ 10000)
      ∧ (∀ (α : Type) (responses : Nat → VenueOutcome α) (m : Nat),
          (request responses m).attempts ≤ m + 1)
      ∧ (∀ (α : Type) (responses : Nat → VenueOutcome α) (m : Nat),
          (request responses m).delays
            = (List.range ((request responses m).attempts - 1)).map backoffDelay)
      ∧ (∀ (α : Type) (responses : Nat → VenueOutcome α) (m : Nat)
           (code : Int) (msg : String),
          responses 0 = VenueOutcome.httpError code msg →
          isRetryableError code = false →
            request responses m
              = ⟨Except.error (ClientError.orderlyErr code
                  (createOrderlyErrorMessage code msg)), 1, []⟩)
      ∧ (∀ (α : Type) (responses : Nat → VenueOutcome α) (m : Nat)
           (code : Int) (msg : String) (v : α),
          responses 0 = VenueOutcome.httpError code msg →
          isRetryableError code = true →
          isClockSkewError code msg = false →
          responses 1 = VenueOutcome.success v → 1 ≤ m →
            request responses m = ⟨Except.ok v, 2, [1000]⟩) := by
  refine ⟨?_, fun _ => rfl, rfl, rfl, rfl, ?_, ?_, ?_, ?_, ?_⟩
  · intro code
    simp [isRetryableError, nonRetryableCodes]
    tauto
  · intro attempt
    exact Nat.min_le_right _ _
  · intro α responses m
    exact requestGo_attempts_le responses (m + 1) 0 _
  · intro α responses m
    rw [List.range_eq_range']
    exact requestGo_delays responses (m + 1) 0 _
  · intro α responses m code msg h0 hnr
    unfold request
    cases m with
    | zero => simp [requestGo, h0, stepAction, hnr]
    | succ m => simp [requestGo, h0, stepAction, hnr]
  · intro α responses m code msg v h0 hr hcs h1 hm
    obtain ⟨m', rfl⟩ : ∃ m', m = m' + 1 := ⟨m - 1, by omega⟩
    unfold request
    simp [requestGo, h0, h1, stepAction, hr, hcs, backoffDelay]

/-- C6 witness: the non-retryable and retryable conjuncts of the
policy theorem applied to concrete response sequences. -/
theorem c6_retry_policy_witness :
    request (fun _ => VenueOutcome.httpError (-1005) "bad format"
        : Nat → VenueOutcome Unit) 3
        = ⟨Except.error (ClientError.orderlyErr (-1005)
            (createOrderlyErrorMessage (-1005) "bad format")), 1, []⟩
      ∧ request (fun n => if n = 0 then VenueOutcome.httpError (-1003) "rate limited"
            else VenueOutcome.success (42 : Nat)) 3
        = ⟨Except.ok 42, 2, [1000]⟩ :=
  ⟨c6_retry_policy.2.2.2.2.2.2.2.2.1 Unit _ 3 (-1005) "bad format" rfl (by decide),
   c6_retry_policy.2.2.2.2.2.2.2.2.2 Nat _ 3 (-1003) "rate limited" 42 rfl
     (by decide) (by decide) rfl (by decide)⟩

set_option maxRecDepth 4000 in
/-- C7: a venue response with the unauthorized code and a message
mentioning the timestamp is surfaced immediately (one attempt, no
retry) — but as the generic enhanced UNAUTHORIZED error, with no
clock-sync guidance: the message does not even contain "clock".  The
guidance branch is dead code in general — no run of the client can
ever surface the plain clock-guidance error — because
`isClockSkewError` requires the unauthorized code, which the
non-retryable check already throws one line earlier. -/
theorem c7_clock_guidance_unreachable :
    request (fun _ => VenueOutcome.httpError (-1002) "auth timestamp expired"
        : Nat → VenueOutcome Unit) 3
        = ⟨Except.error (ClientError.orderlyErr (-1002)
            (createOrderlyErrorMessage (-1002) "auth timestamp expired")), 1, []⟩
      ∧ isClockSkewError (-1002) "auth timestamp expired" = true
      ∧ createOrderlyErrorMessage (-1002) "auth timestamp expired"
          = "UNAUTHORIZED: auth timestamp expired. " ++
            "Invalid, expired, revoked credentials or lack permissions"
      ∧ containsSub
          ((createOrderlyErrorMessage (-1002) "auth timestamp expired").toList)
          ("clock".toList) = false
      ∧ (∀ (α : Type) (responses : Nat → VenueOutcome α) (m : Nat) (s : String),
          (request responses m).result ≠ Except.error (ClientError.plainErr s)) := by
  refine ⟨rfl, by decide, rfl, by decide, ?_⟩
  intro α responses m s
  unfold request
  exact requestGo_result_ne_plainErr responses (m + 1) 0 _
    (fun t h => ClientError.noConfusion h) s

/-- C7 witness: the dead-code conjunct applied to a concrete run. -/
theorem c7_clock_guidance_witness :
    (request (fun _ => VenueOutcome.networkError "timeout"
        : Nat → VenueOutcome Unit) 2).result
      ≠ Except.error (ClientError.plainErr "any") :=
  c7_clock_guidance_unreachable.2.2.2.2 Unit _ 2 "any"

/-! ## Claim C5 — canonical string and signature encoding -/

lemma strNoWs_append (s t : String) :
    strNoWs (s ++ t) = (strNoWs s && strNoWs t) := by
  simp [strNoWs, List.all_append]

lemma digitChar_not_ws : ∀ d, d < 10 → isWsChar (digitChar d) = false := by
  decide

lemma natDigitsRev_noWs :
    ∀ (fuel n : Nat), (natDigitsRev fuel n).all (fun c => !isWsChar c) = true := by
  intro fuel
  induction fuel with
  | zero => intro n; rfl
  | succ fuel ih =>
    intro n
    by_cases h : n = 0
    · simp [natDigitsRev, h]
    · have hd := digitChar_not_ws (n % 10) (Nat.mod_lt n (by norm_num))
      simp [natDigitsRev, h, ih (n / 10), hd]

lemma natRepr_noWs (n : Nat) : strNoWs (natRepr n) = true := by
  unfold natRepr
  by_cases h : n = 0
  · simp only [h, if_pos]
    decide
  · simp only [h, if_neg, ite_false]
    show ((natDigitsRev n n).reverse.all (fun c => !isWsChar c)) = true
    rw [List.all_reverse]
    exact natDigitsRev_noWs n n

lemma intRepr_noWs (n : Int) : strNoWs (intRepr n) = true := by
  unfold intRepr
  by_cases h : n < 0
  · simp only [h, ite_true]
    rw [strNoWs_append]
    simp [natRepr_noWs]
    decide
  · simp [h, natRepr_noWs]

/-- A scalar whose rendered text carries no whitespace of its own:
every scalar except a string with whitespace inside its value. -/
def scalarOk : JsonScalar → Bool
  | JsonScalar.str s => strNoWs s
  | _ => true

/-- All field names and scalar values free of whitespace. -/
def fieldsOk (fields : List (String × JsonScalar)) : Bool :=
  fields.all (fun f => strNoWs f.1 && scalarOk f.2)

lemma scalarStringify_noWs (v : JsonScalar) (h : scalarOk v = true) :
    strNoWs (scalarStringify v) = true := by
  cases v with
  | str s =>
    show strNoWs ("\"" ++ s ++ "\"") = true
    rw [strNoWs_append, strNoWs_append]
    simp only [scalarOk] at h
    simp [h]
    decide
  | num n => simpa [scalarStringify] using intRepr_noWs n
  | bool b => cases b <;> decide

lemma joinComma_noWs :
    ∀ (l : List String), (∀ x ∈ l, strNoWs x = true) →
      strNoWs (joinComma l) = true := by
  intro l
  induction l with
  | nil => intro _; decide
  | cons x xs ih =>
    intro h
    cases xs with
    | nil => simpa [joinComma] using h x (by simp)
    | cons y ys =>
      show strNoWs (x ++ "," ++ joinComma (y :: ys)) = true
      rw [strNoWs_append, strNoWs_append]
      have hx := h x (by simp)
      have hrest := ih (fun z hz => h z (by simp [hz]))
      simp [hx, hrest]
      decide

lemma jsonStringify_noWs (fields : List (String × JsonScalar))
    (h : fieldsOk fields = true) : strNoWs (jsonStringify fields) = true := by
  unfold jsonStringify
  rw [strNoWs_append, strNoWs_append]
  have hj : strNoWs (joinComma
      (fields.map (fun f => "\"" ++ f.1 ++ "\":" ++ scalarStringify f.2))) = true := by
    apply joinComma_noWs
    intro x hx
    obtain ⟨f, hf, rfl⟩ := List.mem_map.mp hx
    have hfok : (strNoWs f.1 && scalarOk f.2) = true :=
      List.all_eq_true.mp h f hf
    have hfok' : strNoWs f.1 = true ∧ scalarOk f.2 = true := by simpa using hfok
    obtain ⟨h1, h2⟩ := hfok'
    rw [strNoWs_append, strNoWs_append, strNoWs_append]
    simp [h1, scalarStringify_noWs f.2 h2]
    decide
  simp [hj]
  decide

lemma methodStr_noWs : ∀ m : HttpMethod, strNoWs (methodStr m) = true := by
  intro m; cases m <;> decide

lemma b64StdAlphabet_length : b64StdAlphabet.length = 64 := by decide

lemma b64UrlAlphabet_length : b64UrlAlphabet.length = 64 := by decide

lemma stdToUrl_comm : ∀ n : Nat, stdToUrlChar (b64StdChar n) = b64UrlChar n := by
  intro n
  rcases Nat.lt_or_ge n 64 with h | h
  · exact (by decide :
      ∀ m, m < 64 → stdToUrlChar (b64StdChar m) = b64UrlChar m) n h
  · have h1 : b64StdChar n = '?' := by
      unfold b64StdChar
      exact List.getD_eq_default _ _ (by rw [b64StdAlphabet_length]; exact h)
    have h2 : b64UrlChar n = '?' := by
      unfold b64UrlChar
      exact List.getD_eq_default _ _ (by rw [b64UrlAlphabet_length]; exact h)
    rw [h1, h2]
    decide

lemma b64UrlChar_safe :
    ∀ n : Nat, (b64UrlChar n == '+' || b64UrlChar n == '/' || b64UrlChar n == '=')
      = false := by
  intro n
  rcases Nat.lt_or_ge n 64 with h | h
  · exact (by decide : ∀ m, m < 64 →
      (b64UrlChar m == '+' || b64UrlChar m == '/' || b64UrlChar m == '=')
        = false) n h
  · have h2 : b64UrlChar n = '?' := by
      unfold b64UrlChar
      exact List.getD_eq_default _ _ (by rw [b64UrlAlphabet_length]; exact h)
    rw [h2]
    decide

lemma dropWhile_eq_self_of_ne (l : List Char) (h : ∀ c ∈ l, c ≠ '=') :
    l.dropWhile (fun c => c == '=') = l := by
  cases l with
  | nil => rfl
  | cons c t =>
    have hc : (c == '=') = false := by
      cases hb : c == '='
      · rfl
      · exact absurd (eq_of_beq hb) (h c (by simp))
    simp [List.dropWhile_cons, hc]

lemma dropTrailingEq_append_pad (l : List Char) (p : Nat)
    (hl : ∀ c ∈ l, c ≠ '=') :
    dropTrailingEq (l ++ List.replicate p '=') = l := by
  unfold dropTrailingEq
  rw [List.reverse_append, List.reverse_replicate]
  induction p with
  | zero =>
    simp only [List.replicate, List.nil_append]
    rw [dropWhile_eq_self_of_ne]
    · exact List.reverse_reverse l
    · intro c hc
      exact hl c (List.mem_reverse.mp hc)
  | succ p ih =>
    simp only [List.replicate_succ, List.cons_append, List.dropWhile_cons]
    simpa using ih

/-- The character replacements plus padding strip of `signMessage`
compute exactly the URL-safe unpadded base64 encoding. -/
lemma base64_url_strip (bytes : List Nat) :
    dropTrailingEq ((base64Encode bytes).map stdToUrlChar)
      = base64UrlNoPad bytes := by
  unfold base64Encode base64UrlNoPad
  rw [List.map_append, List.map_map, List.map_replicate]
  rw [show stdToUrlChar ∘ b64StdChar = b64UrlChar from funext stdToUrl_comm]
  rw [show stdToUrlChar '=' = '=' from rfl]
  apply dropTrailingEq_append_pad
  intro c hc
  obtain ⟨n, -, rfl⟩ := List.mem_map.mp hc
  intro heq
  have hs := b64UrlChar_safe n
  rw [heq] at hs
  simp at hs

/-- C5: the canonical string is the plain concatenation
`timestamp ‖ METHOD ‖ path ‖ body` with no separator characters (an
absent body contributing nothing at all); the method strings are
uppercase; with a JSON body the canonical string contains no
whitespace (given whitespace-free path and field contents, since
`JSON.stringify` is compact); a GET/DELETE-style signed request with
no body signs exactly `timestamp ‖ METHOD ‖ path`; and the Ed25519
signature over the canonical string's UTF-8 bytes is emitted as
URL-safe unpadded base64 — the replace-and-strip pipeline equals the
direct URL-safe encoding, whose output never contains `+`, `/` or
`=`. -/
theorem c5_canonical_signing :
    (∀ (ts : Nat) (m : HttpMethod) (path : String) (b : String),
        constructCanonicalString ⟨ts, m, path, some b⟩
          = constructCanonicalString ⟨ts, m, path, none⟩ ++ b)
      ∧ (∀ (ts : Nat) (m : HttpMethod) (path : String),
          constructCanonicalString ⟨ts, m, path, none⟩
            = natRepr ts ++ methodStr m ++ path)
      ∧ (∀ m : HttpMethod, (methodStr m).toList.all Char.isUpper = true)
      ∧ (∀ (ts : Nat) (m : HttpMethod) (path : String)
           (fields : List (String × JsonScalar)),
          strNoWs path = true → fieldsOk fields = true →
            strNoWs (constructCanonicalString
              ⟨ts, m, path, some (jsonStringify fields)⟩) = true)
      ∧ (∀ (edSign : List Nat → List Nat → List Nat) (key : List Nat)
           (m : HttpMethod) (path : String) (now : Nat),
          generateAuthSignature edSign key m path none now
            = signMessage edSign key (natRepr now ++ methodStr m ++ path))
      ∧ (∀ (edSign : List Nat → List Nat → List Nat) (key : List Nat)
           (msg : String),
          signMessage edSign key msg
            = String.mk (base64UrlNoPad (edSign (utf8Bytes msg) key)))
      ∧ (∀ bytes : List Nat,
          (base64UrlNoPad bytes).all
            (fun c => !(c == '+' || c == '/' || c == '=')) = true) := by
  refine ⟨?_, ?_, ?_, ?_, ?_, ?_, ?_⟩
  · intro ts m path b
    show natRepr ts ++ methodStr m ++ path ++ b
      = (natRepr ts ++ methodStr m ++ path ++ "") ++ b
    rw [String.append_empty]
  · intro ts m path
    show natRepr ts ++ methodStr m ++ path ++ "" = natRepr ts ++ methodStr m ++ path
    rw [String.append_empty]
  · intro m
    cases m <;> decide
  · intro ts m path fields hpath hfields
    show strNoWs (natRepr ts ++ methodStr m ++ path ++ jsonStringify fields) = true
    rw [strNoWs_append, strNoWs_append, strNoWs_append]
    simp [natRepr_noWs, methodStr_noWs, hpath, jsonStringify_noWs fields hfields]
  · intro edSign key m path now
    show signMessage edSign key (natRepr now ++ methodStr m ++ path ++ "")
      = signMessage edSign key (natRepr now ++ methodStr m ++ path)
    rw [String.append_empty]
  · intro edSign key msg
    unfold signMessage
    simp only []
    rw [base64_url_strip]
  · intro bytes
    rw [List.all_eq_true]
    intro c hc
    obtain ⟨n, -, rfl⟩ := List.mem_map.mp hc
    simpa using b64UrlChar_safe n

/-- C5 witness: the whitespace and encoding conjuncts applied at a
concrete POST `/v1/order` body and a concrete byte string. -/
theorem c5_canonical_signing_witness :
    strNoWs (constructCanonicalString
        ⟨1700000000000, HttpMethod.post, "/v1/order",
         some (jsonStringify
           [("symbol", JsonScalar.str "PERP_ETH_USDC"),
            ("side", JsonScalar.str "BUY")])⟩) = true
      ∧ (base64UrlNoPad [255, 237, 3]).all
          (fun c => !(c == '+' || c == '/' || c == '=')) = true :=
  ⟨c5_canonical_signing.2.2.2.1 1700000000000 HttpMethod.post "/v1/order"
     [("symbol", JsonScalar.str "PERP_ETH_USDC"),
      ("side", JsonScalar.str "BUY")] (by decide) (by decide),
   c5_canonical_signing.2.2.2.2.2.2 [255, 237, 3]⟩

/-! ## Claim C8 — signing determinism -/

/-- C8: the request signature is a function of exactly the
`(method, path, body, timestamp, key)` tuple and the deterministic
Ed25519 primitive (`ed.sign` per RFC 8032, modelled as the function
parameter `edSign`): two runs on equal tuples produce byte-identical
signatures — the pipeline reads no other state and draws no
randomness. -/
theorem c8_signing_deterministic :
    ∀ (edSign : List Nat → List Nat → List Nat) (key key' : List Nat)
      (m m' : HttpMethod) (path path' : String)
      (body body' : Option (List (String × JsonScalar))) (ts ts' : Nat),
      key = key' → m = m' → path = path' → body = body' → ts = ts' →
        generateAuthSignature edSign key m path body ts
          = generateAuthSignature edSign key' m' path' body' ts' := by
  intro edSign key key' m m' path path' body body' ts ts' h1 h2 h3 h4 h5
  subst h1
  subst h2
  subst h3
  subst h4
  subst h5
  rfl

/-- C8 witness: two runs of the signer on the same concrete tuple. -/
theorem c8_signing_deterministic_witness :
    generateAuthSignature (fun msg key => msg ++ key) [1, 2] HttpMethod.post
        "/v1/order" none 1700000000000
      = generateAuthSignature (fun msg key => msg ++ key) [1, 2] HttpMethod.post
        "/v1/order" none 1700000000000 :=
  c8_signing_deterministic (fun msg key => msg ++ key) [1, 2] [1, 2]
    HttpMethod.post HttpMethod.post "/v1/order" "/v1/order" none none
    1700000000000 1700000000000 rfl rfl rfl rfl rfl

/-! ## Claim C9 — seal / open round trip -/

lemma keyStream_length (block : Nat → List Nat) (len : Nat)
    (hE : ∀ c, (block c).length = 16) : (keyStream block len).length = len := by
  unfold keyStream
  rw [List.length_take, List.length_flatten, List.map_map]
  have hmap : (List.range len).map (List.length ∘ fun i => block (i + 2))
      = (List.range len).map (fun _ => 16) := by
    apply List.map_congr_left
    intro i _
    simp [hE]
  rw [hmap, List.map_const', List.sum_replicate, List.length_range]
  simp [smul_eq_mul]
  omega

lemma zipXor_cancel (pt : List Nat) :
    ∀ ks : List Nat, ks.length = pt.length → zipXor (zipXor pt ks) ks = pt := by
  induction pt with
  | nil =>
    intro ks h
    cases ks with
    | nil => rfl
    | cons k ks => simp at h
  | cons p pt ih =>
    intro ks h
    cases ks with
    | nil => simp at h
    | cons k ks =>
      show ((p ^^^ k) ^^^ k) :: zipXor (zipXor pt ks) ks = p :: pt
      rw [Nat.xor_cancel_right, ih ks (by simpa using h)]

/-- C9: sealing then opening returns the original plaintext, for every
plaintext, 32-byte master key, randomness source, GHASH function and
AES block function (GCM's counter mode only ever uses the block
function forward, so the round trip needs nothing of AES beyond its
16-byte block size); the envelope carries the freshly drawn 12-byte
random nonce, the ciphertext and the authentication tag; and opening
fails when the recomputed tag does not match the envelope's tag or
when the envelope is malformed. -/
theorem c9_seal_open_roundtrip :
    (∀ (blockE : List Nat → List Nat → Nat → List Nat)
       (ghash : List Nat → List Nat → List Nat → List Nat)
       (key : List Nat) (randomBytes : Nat → List Nat) (pt : List Nat),
        key.length = 32 →
        (∀ c, (blockE key (randomBytes 12) c).length = 16) →
          decryptService blockE ghash key
            (some (encryptService blockE ghash key randomBytes pt))
            = Except.ok pt)
      ∧ (∀ (blockE : List Nat → List Nat → Nat → List Nat)
           (ghash : List Nat → List Nat → List Nat → List Nat)
           (key : List Nat) (randomBytes : Nat → List Nat) (pt : List Nat),
          (encryptService blockE ghash key randomBytes pt).iv = randomBytes 12)
      ∧ (∀ (blockE : List Nat → List Nat → Nat → List Nat)
           (ghash : List Nat → List Nat → List Nat → List Nat)
           (key : List Nat) (env : EncryptedData),
          gcmTag blockE ghash key env.iv env.encrypted ≠ env.tag →
            decryptService blockE ghash key (some env)
              = Except.error "Decryption failed: authentication tag mismatch")
      ∧ (∀ (blockE : List Nat → List Nat → Nat → List Nat)
           (ghash : List Nat → List Nat → List Nat → List Nat)
           (key : List Nat),
          decryptService blockE ghash key none
            = Except.error "Decryption failed: malformed envelope") := by
  refine ⟨?_, fun _ _ _ _ _ => rfl, ?_, fun _ _ _ => rfl⟩
  · intro blockE ghash key rng pt _ hE
    unfold encryptService decryptService
    simp only []
    rw [if_pos trivial]
    have hkslen : (keyStream (blockE key (rng 12)) pt.length).length
        = pt.length := keyStream_length _ _ hE
    have hct : (zipXor pt (keyStream (blockE key (rng 12)) pt.length)).length
        = pt.length := by
      simp [zipXor, hkslen]
    rw [hct]
    exact congrArg Except.ok (zipXor_cancel pt _ hkslen)
  · intro blockE ghash key env h
    simp only [decryptService]
    rw [if_neg h]

/-- C9 witness: the round trip, tag failure and malformed cases at a
concrete cipher, key and plaintext. -/
theorem c9_seal_open_roundtrip_witness :
    decryptService (fun _ _ _ => List.replicate 16 0) (fun _ _ _ => [0])
        (List.replicate 32 1)
        (some (encryptService (fun _ _ _ => List.replicate 16 0)
          (fun _ _ _ => [0]) (List.replicate 32 1)
          (fun n => List.replicate n 7) [104, 105]))
        = Except.ok [104, 105]
      ∧ decryptService (fun _ _ _ => List.replicate 16 0) (fun _ _ _ => [0])
          (List.replicate 32 1) (some ⟨[1], [2], []⟩)
          = Except.error "Decryption failed: authentication tag mismatch" :=
  ⟨c9_seal_open_roundtrip.1 (fun _ _ _ => List.replicate 16 0)
     (fun _ _ _ => [0]) (List.replicate 32 1) (fun n => List.replicate n 7)
     [104, 105] (by decide) (fun c => by simp),
   c9_seal_open_roundtrip.2.2.1 (fun _ _ _ => List.replicate 16 0)
     (fun _ _ _ => [0]) (List.replicate 32 1) ⟨[1], [2], []⟩ (by decide)⟩

end Perp
